import Mathlib

/-!
Verification of the EEG mental tracker core.

Shallow embedding of the pipeline implemented in the repository:
the EEG sample generator (`modules/eeg_simulator.py`), the window
aggregator and ratio computation (`modules/signal_processor.py`), the
rule-based mental-state classifier (`modules/mental_state_classifier.py`),
the recommendation engine (`modules/recommendation_engine.py`) and the
streaming loop plus the mode-change handler (`app.py`).

Python floats are modelled as rationals, Python ints as integers.
A Python dict with a possibly absent key is modelled with an `Option`
field.  Definitions follow the source line by line; theorems below settle
the specification claims against them.
-/

/-- Truncation of a rational toward zero, the semantics of Python's
`int(...)` conversion applied to a float. -/
def pyInt (q : ℚ) : ℤ :=
  if q < 0 then -Int.floor (-q) else Int.floor q

/-- The `MentalState` dataclass of `mental_state_classifier.py`:
three 0-100 levels and a confidence score. -/
structure MentalState where
  stress_level : ℤ
  focus_level : ℤ
  sleepiness_level : ℤ
  confidence : ℚ
  deriving DecidableEq

/-- The band-power dict produced by `SignalProcessor.analyze_eeg_window`
and consumed by `classify` and `calculate_ratios`: five mean band powers
plus the window-end timestamp. -/
structure BandPowers where
  delta_power : ℚ
  theta_power : ℚ
  alpha_power : ℚ
  beta_power : ℚ
  gamma_power : ℚ
  timestamp : ℚ
  deriving DecidableEq

/-- Sum of the five band powers, as computed inline both in
`MentalStateClassifier.classify` and in `SignalProcessor.calculate_ratios`. -/
def totalPower (bp : BandPowers) : ℚ :=
  bp.delta_power + bp.theta_power + bp.alpha_power + bp.beta_power + bp.gamma_power

/-- `MentalStateClassifier._calculate_stress`. -/
def calculate_stress (beta_pct alpha_pct gamma_pct : ℚ) : ℤ :=
  let stress_from_beta := min 100 (beta_pct * 3)
  let stress_from_alpha := max 0 (50 - alpha_pct * 2)
  let stress_from_gamma := min 30 (gamma_pct * 2)
  pyInt (min 100 (max 0 ((stress_from_beta + stress_from_alpha + stress_from_gamma) / 2.5)))

/-- `MentalStateClassifier._calculate_focus`. -/
def calculate_focus (beta_pct gamma_pct alpha_pct : ℚ) : ℤ :=
  let focus_from_beta : ℚ :=
    if 20 ≤ beta_pct ∧ beta_pct ≤ 35 then 60
    else if 35 < beta_pct then min 100 (beta_pct * 2)
    else beta_pct * 2
  let focus_from_gamma := min 40 (gamma_pct * 3)
  let alpha_penalty := max 0 ((alpha_pct - 30) * 0.5)
  pyInt (min 100 (max 0 (focus_from_beta + focus_from_gamma - alpha_penalty)))

/-- `MentalStateClassifier._calculate_sleepiness`. -/
def calculate_sleepiness (delta_pct theta_pct beta_pct : ℚ) : ℤ :=
  let sleepy_from_slow := (delta_pct * 2 + theta_pct * 1.5) / 2
  let beta_penalty := max 0 (30 - beta_pct)
  pyInt (min 100 (max 0 (sleepy_from_slow + beta_penalty)))

/-- `MentalStateClassifier._calculate_confidence`: step function of total power. -/
def calculate_confidence (total_power : ℚ) : ℚ :=
  if 30 < total_power then 0.9
  else if 20 < total_power then 0.7
  else if 10 < total_power then 0.5
  else 0.3

/-- `MentalStateClassifier.classify`: low-signal escape hatch below total 1.0,
otherwise the three level formulas on band percentages plus the confidence step. -/
def classify (bp : BandPowers) : MentalState :=
  if totalPower bp < 1 then
    ⟨0, 0, 0, 0⟩
  else
    let delta_pct := bp.delta_power / totalPower bp * 100
    let theta_pct := bp.theta_power / totalPower bp * 100
    let alpha_pct := bp.alpha_power / totalPower bp * 100
    let beta_pct := bp.beta_power / totalPower bp * 100
    let gamma_pct := bp.gamma_power / totalPower bp * 100
    ⟨calculate_stress beta_pct alpha_pct gamma_pct,
     calculate_focus beta_pct gamma_pct alpha_pct,
     calculate_sleepiness delta_pct theta_pct beta_pct,
     calculate_confidence (totalPower bp)⟩

/-- Result dict of `SignalProcessor.calculate_ratios`.  The zero-total branch
of the source returns a dict without the total-power key, hence the `Option`
in the third field. -/
structure RatiosResult where
  beta_alpha_ratio : ℚ
  theta_beta_ratio : ℚ
  total_power : Option ℚ
  deriving DecidableEq

/-- `SignalProcessor.calculate_ratios`: guard on total power zero, then the
two ratios with alpha and beta floored at 0.1. -/
def calculate_ratios (bp : BandPowers) : RatiosResult :=
  if totalPower bp = 0 then
    ⟨0, 0, none⟩
  else
    let alpha := max bp.alpha_power 0.1
    let beta := max bp.beta_power 0.1
    ⟨beta / alpha, bp.theta_power / beta, some (totalPower bp)⟩

/-- `RecommendationType` enum of `recommendation_engine.py`.  The `BREAK`
member is rendered `break_rec` because `break` clashes with Lean syntax. -/
inductive RecommendationType where
  | binaural_beats
  | meditation
  | break_rec
  | breathing
  deriving DecidableEq

/-- The `Recommendation` dataclass: kind, optional binaural frequency,
duration, texts and priority (1 = highest). -/
structure Recommendation where
  type : RecommendationType
  frequency_hz : Option ℚ
  duration_minutes : ℤ
  title : String
  description : String
  priority : ℤ
  deriving DecidableEq

/-- First stress-set entry: 10 Hz binaural beats, priority 1. -/
def stress_rec_binaural : Recommendation :=
  ⟨RecommendationType.binaural_beats, some 10, 10,
   "🎵 Alpha Dalgası - Stres Azaltıcı",
   "10 Hz Alpha dalgası ile derin rahatlamayı destekler. Kulaklıkla dinlemeniz önerilir.",
   1⟩

/-- Second stress-set entry: breathing exercise, priority 1. -/
def stress_rec_breathing : Recommendation :=
  ⟨RecommendationType.breathing, none, 5,
   "🫁 4-7-8 Nefes Tekniği",
   "4 saniye burnunuzdan nefes alın, 7 saniye tutun, 8 saniye ağzınızdan verin. 4 kez tekrarlayın.",
   1⟩

/-- Third stress-set entry: body-scan meditation, priority 2. -/
def stress_rec_meditation : Recommendation :=
  ⟨RecommendationType.meditation, none, 10,
   "🧘 Beden Tarama Meditasyonu",
   "Vücudunuzdaki her bölgeyi sırayla tarayın ve gevşetin.",
   2⟩

/-- First focus-set entry: 20 Hz binaural beats, priority 1. -/
def focus_rec_binaural : Recommendation :=
  ⟨RecommendationType.binaural_beats, some 20, 15,
   "🎵 Beta Dalgası - Konsantrasyon Artırıcı",
   "20 Hz Beta dalgası ile odaklanmayı destekler. Çalışma sırasında arka planda çalabilir.",
   1⟩

/-- Second focus-set entry: short break, priority 2. -/
def focus_rec_break : Recommendation :=
  ⟨RecommendationType.break_rec, none, 5,
   "☕ Kısa Mola",
   "5 dakika ayağa kalkın, gerinin, su için. Pomodoro tekniği: 25 dk çalış, 5 dk mola.",
   2⟩

/-- First sleepiness-set entry: energy break, priority 1. -/
def sleepy_rec_break : Recommendation :=
  ⟨RecommendationType.break_rec, none, 10,
   "🚶 Enerji Molası",
   "Kısa yürüyüş veya hafif germe hareketleri. Dışarı çıkıp güneş ışığı almanız faydalı olacaktır.",
   1⟩

/-- Second sleepiness-set entry: 15 Hz binaural beats, priority 2. -/
def sleepy_rec_binaural : Recommendation :=
  ⟨RecommendationType.binaural_beats, some 15, 10,
   "🎵 Uyanıklık Artırıcı",
   "15 Hz ile uyanıklığı destekler.",
   2⟩

/-- Third sleepiness-set entry: fast breathing, priority 2. -/
def sleepy_rec_breathing : Recommendation :=
  ⟨RecommendationType.breathing, none, 3,
   "🫁 Hızlı Enerji Nefesi",
   "Hızlı ve derin nefes alıp verme (Bellows Breath). 30 saniye hızlı nefes, 30 saniye normal nefes.",
   2⟩

/-- The single maintenance entry: mindfulness meditation, priority 3. -/
def maintenance_rec_meditation : Recommendation :=
  ⟨RecommendationType.meditation, none, 5,
   "🧘 Mindfulness Anı",
   "Kısa bir farkındalık egzersizi ile zihninizi tazeleyin.",
   3⟩

/-- `RecommendationEngine._stress_recommendations`. -/
def stress_recommendations : List Recommendation :=
  [stress_rec_binaural, stress_rec_breathing, stress_rec_meditation]

/-- `RecommendationEngine._focus_recommendations`. -/
def focus_recommendations : List Recommendation :=
  [focus_rec_binaural, focus_rec_break]

/-- `RecommendationEngine._sleepiness_recommendations`. -/
def sleepiness_recommendations : List Recommendation :=
  [sleepy_rec_break, sleepy_rec_binaural, sleepy_rec_breathing]

/-- `RecommendationEngine._maintenance_recommendations`. -/
def maintenance_recommendations : List Recommendation :=
  [maintenance_rec_meditation]

/-- Engine threshold `high_stress_threshold = 60`. -/
def high_stress_threshold : ℤ := 60

/-- Engine threshold `low_focus_threshold = 40`. -/
def low_focus_threshold : ℤ := 40

/-- Engine threshold `high_sleepiness_threshold = 70`. -/
def high_sleepiness_threshold : ℤ := 70

/-- The list collected by `RecommendationEngine.generate` before sorting,
in the evaluation order of the four rule blocks. -/
def collectRecommendations (ms : MentalState) : List Recommendation :=
  (if high_stress_threshold < ms.stress_level then stress_recommendations else []) ++
  (if ms.focus_level < low_focus_threshold then focus_recommendations else []) ++
  (if high_sleepiness_threshold < ms.sleepiness_level then sleepiness_recommendations else []) ++
  (if low_focus_threshold ≤ ms.focus_level ∧ ms.focus_level ≤ 70 ∧
      ms.stress_level < high_stress_threshold ∧
      ms.sleepiness_level < high_sleepiness_threshold
   then maintenance_recommendations else [])

/-- Stable insertion step: a new element goes in front of the first element
of strictly greater priority, staying behind equal priorities. -/
def insertByPriority (x : Recommendation) : List Recommendation → List Recommendation
  | [] => [x]
  | y :: ys => if x.priority ≤ y.priority then x :: y :: ys else y :: insertByPriority x ys

/-- The stable sort by ascending priority performed by
`recommendations.sort(key=lambda x: x.priority)` in the source; Python's
sort is stable, which this insertion sort realizes. -/
def sortByPriority (l : List Recommendation) : List Recommendation :=
  l.foldr insertByPriority []

/-- `RecommendationEngine.generate`: collect the triggered rule sets and
sort by priority. -/
def generate (ms : MentalState) : List Recommendation :=
  sortByPriority (collectRecommendations ms)

/-- `MentalStateMode` enum of `eeg_simulator.py`. -/
inductive MentalStateMode where
  | relaxed
  | focused
  | stressed
  | sleepy
  deriving DecidableEq

/-- Argument of `generate_sample`: one of the four enum members, or any
other value, which falls through to the default profile branch. -/
inductive ModeArg where
  | member (m : MentalStateMode)
  | other
  deriving DecidableEq

/-- The `EEGSample` dataclass: timestamp plus five band powers. -/
structure EEGSample where
  timestamp : ℚ
  delta : ℚ
  theta : ℚ
  alpha : ℚ
  beta : ℚ
  gamma : ℚ
  deriving DecidableEq

/-- `EEGSimulator.generate_sample`: per-mode base profile plus one shared
Gaussian noise draw, each band floored at 0.1.  The noise value and the
current time counter are passed explicitly. -/
def generate_sample (mode : ModeArg) (noise time : ℚ) : EEGSample :=
  let p : ℚ × ℚ × ℚ × ℚ × ℚ :=
    match mode with
    | .member .relaxed => (5 + noise, 8 + noise, 15 + noise, 5 + noise, 2 + noise)
    | .member .focused => (3 + noise, 5 + noise, 7 + noise, 18 + noise, 8 + noise)
    | .member .stressed => (4 + noise, 6 + noise, 4 + noise, 20 + noise, 12 + noise)
    | .member .sleepy => (12 + noise, 10 + noise, 6 + noise, 3 + noise, 1 + noise)
    | .other => (5 + noise, 5 + noise, 5 + noise, 5 + noise, 5 + noise)
  ⟨time, max 0.1 p.1, max 0.1 p.2.1, max 0.1 p.2.2.1, max 0.1 p.2.2.2.1, max 0.1 p.2.2.2.2⟩

/-- Python's `l[-k:]` on a list of length ≥ k: the most recent `k` elements. -/
def pyTail {α : Type} (l : List α) (k : ℕ) : List α :=
  l.drop (l.length - k)

/-- The window-ready check of the streaming loop in `app.py`:
`len(eeg_buffer) >= 512`. -/
def is_window_ready {α : Type} (buffer : List α) : Bool :=
  512 ≤ buffer.length

/-- One buffered iteration of `background_eeg_stream` in `app.py`: extend
the buffer with the new samples; when 512 samples have accumulated, analyze
the most recent 512 (`eeg_buffer[-512:]`) and retain the most recent 256
(`eeg_buffer = eeg_buffer[-256:]`).  Returns the new buffer and the window
taken, if any. -/
def streamStep {α : Type} (buffer newSamples : List α) : List α × Option (List α) :=
  let buf := buffer ++ newSamples
  if 512 ≤ buf.length then
    (pyTail buf 256, some (pyTail buf 512))
  else
    (buf, none)

/-- The shared state touched by `handle_mode_change` in `app.py`:
the active simulator mode and the streaming flag. -/
structure AppState where
  current_mode : MentalStateMode
  is_streaming : Bool
  deriving DecidableEq

/-- The socket reply emitted by `handle_mode_change`: either the
`mode_changed` broadcast or the error event for an invalid mode. -/
inductive ModeChangeReply where
  | mode_changed (m : MentalStateMode)
  | error_reply
  deriving DecidableEq

/-- The `mode_map` dict lookup of `handle_mode_change`. -/
def mode_map (s : String) : Option MentalStateMode :=
  if s = "relaxed" then some MentalStateMode.relaxed
  else if s = "focused" then some MentalStateMode.focused
  else if s = "stressed" then some MentalStateMode.stressed
  else if s = "sleepy" then some MentalStateMode.sleepy
  else none

/-- `handle_mode_change` of `app.py`: a recognized name swaps the active
mode and broadcasts it; an unrecognized name emits the error event and
leaves the state untouched. -/
def handle_mode_change (mode_str : String) (st : AppState) : AppState × ModeChangeReply :=
  match mode_map mode_str with
  | some m => (⟨m, st.is_streaming⟩, ModeChangeReply.mode_changed m)
  | none => (st, ModeChangeReply.error_reply)

lemma clamp_nonneg (x : ℚ) : (0:ℚ) ≤ min 100 (max 0 x) :=
  le_min (by norm_num) (le_max_left 0 x)

lemma pyInt_clamp_nonneg (x : ℚ) : 0 ≤ pyInt (min 100 (max 0 x)) := by
  unfold pyInt
  rw [if_neg (not_lt.2 (clamp_nonneg x))]
  exact Int.le_floor.2 (by exact_mod_cast clamp_nonneg x)

lemma pyInt_clamp_le (x : ℚ) : pyInt (min 100 (max 0 x)) ≤ 100 := by
  unfold pyInt
  rw [if_neg (not_lt.2 (clamp_nonneg x))]
  calc Int.floor (min 100 (max 0 x)) ≤ Int.floor (100:ℚ) :=
        Int.floor_le_floor (min_le_left _ _)
    _ = 100 := by norm_num

lemma calculate_stress_bounds (b a g : ℚ) :
    0 ≤ calculate_stress b a g ∧ calculate_stress b a g ≤ 100 :=
  ⟨pyInt_clamp_nonneg _, pyInt_clamp_le _⟩

lemma calculate_focus_bounds (b g a : ℚ) :
    0 ≤ calculate_focus b g a ∧ calculate_focus b g a ≤ 100 :=
  ⟨pyInt_clamp_nonneg _, pyInt_clamp_le _⟩

lemma calculate_sleepiness_bounds (d t b : ℚ) :
    0 ≤ calculate_sleepiness d t b ∧ calculate_sleepiness d t b ≤ 100 :=
  ⟨pyInt_clamp_nonneg _, pyInt_clamp_le _⟩

lemma calculate_confidence_mem (t : ℚ) :
    calculate_confidence t ∈ ({0, 0.3, 0.5, 0.7, 0.9} : Set ℚ) := by
  unfold calculate_confidence
  split_ifs <;> simp

/-- C3: for every band-powers input, the `MentalState` returned by
`classify` has its three integer levels in [0,100] and its confidence in
the exact step set {0.0, 0.3, 0.5, 0.7, 0.9}. -/
theorem c3_classify_ranges (bp : BandPowers) :
    0 ≤ (classify bp).stress_level ∧ (classify bp).stress_level ≤ 100 ∧
    0 ≤ (classify bp).focus_level ∧ (classify bp).focus_level ≤ 100 ∧
    0 ≤ (classify bp).sleepiness_level ∧ (classify bp).sleepiness_level ≤ 100 ∧
    (classify bp).confidence ∈ ({0, 0.3, 0.5, 0.7, 0.9} : Set ℚ) := by
  by_cases h : totalPower bp < 1
  · simp only [classify, if_pos h]
    refine ⟨le_refl 0, by norm_num, le_refl 0, by norm_num, le_refl 0, by norm_num, by simp⟩
  · simp only [classify, if_neg h]
    exact ⟨(calculate_stress_bounds _ _ _).1, (calculate_stress_bounds _ _ _).2,
           (calculate_focus_bounds _ _ _).1, (calculate_focus_bounds _ _ _).2,
           (calculate_sleepiness_bounds _ _ _).1, (calculate_sleepiness_bounds _ _ _).2,
           calculate_confidence_mem _⟩

/-- C4: for every band-powers input whose five powers sum below 1.0,
`classify` returns exactly `MentalState(0, 0, 0, 0.0)`. -/
theorem c4_low_signal (bp : BandPowers) (h : totalPower bp < 1) :
    classify bp = ⟨0, 0, 0, 0⟩ := by
  simp only [classify, if_pos h]

/-- Witness for C4 at all five band powers equal to 0.1 (total 0.5). -/
theorem c4_low_signal_witness :
    totalPower ⟨0.1, 0.1, 0.1, 0.1, 0.1, 0⟩ < 1 ∧
    classify ⟨0.1, 0.1, 0.1, 0.1, 0.1, 0⟩ = ⟨0, 0, 0, 0⟩ :=
  ⟨by norm_num [totalPower], c4_low_signal _ (by norm_num [totalPower])⟩

/-- C5: for total power ≥ 1.0, the focus level is exactly the clamped,
truncated piecewise formula of the claim: flat 60 for beta% in [20,35],
2·beta% capped at 100 above 35, 2·beta% below 20, plus min(40, 3·gamma%),
minus max(0, (alpha% − 30)·0.5). -/
theorem c5_focus_formula (bp : BandPowers) (h : (1:ℚ) ≤ totalPower bp) :
    (classify bp).focus_level =
      pyInt (min 100 (max 0 (
        (if 20 ≤ bp.beta_power / totalPower bp * 100 ∧ bp.beta_power / totalPower bp * 100 ≤ 35
         then (60:ℚ)
         else if 35 < bp.beta_power / totalPower bp * 100
         then min 100 (bp.beta_power / totalPower bp * 100 * 2)
         else bp.beta_power / totalPower bp * 100 * 2)
        + min 40 (bp.gamma_power / totalPower bp * 100 * 3)
        - max 0 ((bp.alpha_power / totalPower bp * 100 - 30) * 0.5)))) := by
  simp only [classify, if_neg (not_lt.2 h), calculate_focus]

/-- Witness for C5 at all five band powers equal to 10 (total 50; each
percentage 20, so the flat-60 branch, a saturated gamma bonus of 40 and a
zero alpha penalty give focus 100). -/
theorem c5_focus_formula_witness :
    (classify ⟨10, 10, 10, 10, 10, 0⟩).focus_level = 100 := by
  rw [c5_focus_formula ⟨10, 10, 10, 10, 10, 0⟩ (by norm_num [totalPower])]
  norm_num [totalPower, pyInt, min_def, max_def]

/-- C2 counterexample: at the all-zero input the claim demands a result
containing a total-power entry equal to 0, but `calculate_ratios` returns
the two ratios only, with no total-power entry. -/
theorem c2_counterexample :
    calculate_ratios ⟨0, 0, 0, 0, 0, 0⟩ ≠ ⟨0, 0, some 0⟩ := by
  simp [calculate_ratios, totalPower]

/-- C2 amended: when the total is nonzero the result carries the total
power and the two guarded ratios; when the total is exactly 0 the result
reports both ratios as 0 and omits the total-power entry. -/
theorem c2_calculate_ratios_spec (bp : BandPowers) :
    (totalPower bp = 0 → calculate_ratios bp = ⟨0, 0, none⟩) ∧
    (totalPower bp ≠ 0 → calculate_ratios bp =
      ⟨max bp.beta_power 0.1 / max bp.alpha_power 0.1,
       bp.theta_power / max bp.beta_power 0.1,
       some (totalPower bp)⟩) := by
  constructor
  · intro h
    simp only [calculate_ratios, if_pos h]
  · intro h
    simp only [calculate_ratios, if_neg h]

/-- Witness for C2 at band powers (1, 2, 3, 4, 5): total 15, beta/alpha
ratio 4/3, theta/beta ratio 1/2. -/
theorem c2_calculate_ratios_spec_witness :
    calculate_ratios ⟨1, 2, 3, 4, 5, 0⟩ = ⟨4 / 3, 1 / 2, some 15⟩ := by
  rw [(c2_calculate_ratios_spec ⟨1, 2, 3, 4, 5, 0⟩).2 (by norm_num [totalPower])]
  norm_num [totalPower, max_def, RatiosResult.mk.injEq]

/-- C1 counterexample: at `MentalState(stress=60, focus=50, sleepiness=0)`
the claim's guard holds (focus in [40,70], stress ≤ 60, sleepiness ≤ 70)
and it demands the maintenance recommendation, but the engine compares
with strict `<` and returns no recommendation at all. -/
theorem c1_counterexample :
    generate ⟨60, 50, 0, 0.9⟩ = [] := by
  decide

/-- C1 amended: the maintenance rule needs stress strictly below 60 and
sleepiness strictly below 70 (together with focus in [40,70]); then the
output is exactly the single maintenance recommendation of priority 3. -/
theorem c1_maintenance_strict (ms : MentalState)
    (h1 : 40 ≤ ms.focus_level) (h2 : ms.focus_level ≤ 70)
    (h3 : ms.stress_level < 60) (h4 : ms.sleepiness_level < 70) :
    generate ms = [maintenance_rec_meditation] ∧
    maintenance_rec_meditation.priority = 3 := by
  refine ⟨?_, rfl⟩
  have e : collectRecommendations ms = maintenance_recommendations := by
    unfold collectRecommendations high_stress_threshold low_focus_threshold
      high_sleepiness_threshold
    rw [if_neg (by omega), if_neg (by omega), if_neg (by omega), if_pos (by omega)]
    rfl
  unfold generate
  rw [e]
  rfl

/-- Witness for the amended C1 at `MentalState(stress=0, focus=50, sleepiness=0)`. -/
theorem c1_maintenance_strict_witness :
    generate ⟨0, 50, 0, 0.9⟩ = [maintenance_rec_meditation] :=
  (c1_maintenance_strict ⟨0, 50, 0, 0.9⟩ (by decide) (by decide) (by decide) (by decide)).1

/-- C10: with focus above 70 and stress at most 60 and sleepiness at most 70,
no rule fires and the engine returns the empty list, even though all three
levels are inside their valid ranges (witnessed at stress 0, focus 80,
sleepiness 0). -/
theorem c10_high_focus_empty (ms : MentalState)
    (h1 : 70 < ms.focus_level) (h2 : ms.stress_level ≤ 60)
    (h3 : ms.sleepiness_level ≤ 70) :
    generate ms = [] := by
  have e : collectRecommendations ms = [] := by
    unfold collectRecommendations high_stress_threshold low_focus_threshold
      high_sleepiness_threshold
    rw [if_neg (by omega), if_neg (by omega), if_neg (by omega), if_neg (by omega)]
    rfl
  unfold generate
  rw [e]
  rfl

/-- Witness for C10 at `MentalState(stress=0, focus=80, sleepiness=0)`,
all levels inside [0,100]. -/
theorem c10_high_focus_empty_witness :
    generate ⟨0, 80, 0, 0.9⟩ = [] :=
  c10_high_focus_empty ⟨0, 80, 0, 0.9⟩ (by decide) (by decide) (by decide)

/-- C6: the engine's output is sorted non-decreasingly by priority; ties
keep the evaluation order of the rule blocks (equivalently, the output is
the priority-1 entries of the collected list, then the priority-2 entries,
then the priority-3 entries, each in collection order); and whenever
stress exceeds 60 the first two entries are the 10 Hz binaural-beats
recommendation and the breathing exercise, both of priority 1. -/
theorem c6_generate_sorted_stable (ms : MentalState) :
    List.Pairwise (fun a b => a.priority ≤ b.priority) (generate ms) ∧
    generate ms =
      (collectRecommendations ms).filter (fun r => r.priority == 1) ++
      (collectRecommendations ms).filter (fun r => r.priority == 2) ++
      (collectRecommendations ms).filter (fun r => r.priority == 3) ∧
    (60 < ms.stress_level →
      (generate ms).take 2 = [stress_rec_binaural, stress_rec_breathing] ∧
      stress_rec_binaural.priority = 1 ∧ stress_rec_breathing.priority = 1) := by
  unfold generate collectRecommendations high_stress_threshold low_focus_threshold
    high_sleepiness_threshold
  split_ifs with h1 h2 h3 h4 <;>
    refine ⟨by decide, rfl, fun h => ?_⟩ <;>
    first
      | exact ⟨rfl, rfl, rfl⟩
      | exact absurd h h1

/-- Witness for C6 at `MentalState(stress=80, focus=50, sleepiness=0)`. -/
theorem c6_generate_sorted_stable_witness :
    (generate ⟨80, 50, 0, 0.9⟩).take 2 = [stress_rec_binaural, stress_rec_breathing] :=
  ((c6_generate_sorted_stable ⟨80, 50, 0, 0.9⟩).2.2 (by decide)).1

/-- C7: whenever the extended buffer reaches 512 samples and the window is
taken, the retained buffer is exactly the most recent 256 samples, the
ready condition is false immediately afterwards, and it stays false until
at least 256 further samples have been pushed. -/
theorem c7_buffer_hop {α : Type} (buffer newSamples : List α)
    (h : 512 ≤ (buffer ++ newSamples).length) :
    (streamStep buffer newSamples).1 = pyTail (buffer ++ newSamples) 256 ∧
    (streamStep buffer newSamples).1.length = 256 ∧
    is_window_ready (streamStep buffer newSamples).1 = false ∧
    (∀ more : List α, more.length < 256 →
      is_window_ready ((streamStep buffer newSamples).1 ++ more) = false) := by
  have e : (streamStep buffer newSamples).1 = pyTail (buffer ++ newSamples) 256 := by
    unfold streamStep
    rw [if_pos h]
  have hlen : (pyTail (buffer ++ newSamples) 256).length = 256 := by
    unfold pyTail
    rw [List.length_drop]
    omega
  refine ⟨e, by rw [e, hlen], ?_, ?_⟩
  · rw [e]
    simp only [is_window_ready, hlen]
    decide
  · intro more hm
    rw [e]
    simp only [is_window_ready, List.length_append, hlen]
    simp only [decide_eq_false_iff_not]
    omega

/-- Witness for C7 on a 512-sample buffer with no new samples. -/
theorem c7_buffer_hop_witness :
    (streamStep (List.replicate 512 (0 : ℕ)) []).1.length = 256 :=
  (c7_buffer_hop (List.replicate 512 (0 : ℕ)) []
    (by rw [List.append_nil, List.length_replicate])).2.1

/-- C8: an unrecognized mode name makes the handler emit the error reply
and leave the state (active mode and streaming flag) untouched; each of the
four recognized names sets the active mode to its variant and keeps the
streaming flag. -/
theorem c8_mode_change (s : String) (st : AppState) :
    ((s ≠ "relaxed" ∧ s ≠ "focused" ∧ s ≠ "stressed" ∧ s ≠ "sleepy") →
      handle_mode_change s st = (st, ModeChangeReply.error_reply)) ∧
    handle_mode_change "relaxed" st =
      (⟨MentalStateMode.relaxed, st.is_streaming⟩,
       ModeChangeReply.mode_changed MentalStateMode.relaxed) ∧
    handle_mode_change "focused" st =
      (⟨MentalStateMode.focused, st.is_streaming⟩,
       ModeChangeReply.mode_changed MentalStateMode.focused) ∧
    handle_mode_change "stressed" st =
      (⟨MentalStateMode.stressed, st.is_streaming⟩,
       ModeChangeReply.mode_changed MentalStateMode.stressed) ∧
    handle_mode_change "sleepy" st =
      (⟨MentalStateMode.sleepy, st.is_streaming⟩,
       ModeChangeReply.mode_changed MentalStateMode.sleepy) := by
  refine ⟨?_, rfl, rfl, rfl, rfl⟩
  intro hs
  unfold handle_mode_change mode_map
  rw [if_neg hs.1, if_neg hs.2.1, if_neg hs.2.2.1, if_neg hs.2.2.2]

/-- Witness for C8: `set_mode("invalid")` is rejected and the state
(relaxed mode, streaming off) is returned unchanged. -/
theorem c8_mode_change_witness :
    handle_mode_change "invalid" ⟨MentalStateMode.relaxed, false⟩ =
      (⟨MentalStateMode.relaxed, false⟩, ModeChangeReply.error_reply) :=
  (c8_mode_change "invalid" ⟨MentalStateMode.relaxed, false⟩).1
    (by refine ⟨?_, ?_, ?_, ?_⟩ <;> decide)

/-- C9: for every mode argument (the four enum members and the
unrecognized fallback) and every value of the shared noise draw, each of
the five band powers of the generated sample is at least 0.1. -/
theorem c9_band_floor (mode : ModeArg) (noise time : ℚ) :
    (0.1 : ℚ) ≤ (generate_sample mode noise time).delta ∧
    (0.1 : ℚ) ≤ (generate_sample mode noise time).theta ∧
    (0.1 : ℚ) ≤ (generate_sample mode noise time).alpha ∧
    (0.1 : ℚ) ≤ (generate_sample mode noise time).beta ∧
    (0.1 : ℚ) ≤ (generate_sample mode noise time).gamma := by
  rcases mode with m | _
  · cases m <;>
      exact ⟨le_max_left _ _, le_max_left _ _, le_max_left _ _,
             le_max_left _ _, le_max_left _ _⟩
  · exact ⟨le_max_left _ _, le_max_left _ _, le_max_left _ _,
           le_max_left _ _, le_max_left _ _⟩
